import Mathlib

/-!
Shallow embedding of the study-planner resource service (Burdeos.py).

The service keeps three SQLite tables: subjects(id PRIMARY KEY, name UNIQUE),
tasks(id PRIMARY KEY, subject_id, title, due_date, is_completed) and
study_plans(id PRIMARY KEY, name, start_date, end_date).  Rows are modelled as
structures, each table as a list of rows in storage order, and the
AUTOINCREMENT id generators as explicit counters.  SQL statements are
translated one by one inside each handler; a raised HTTPException becomes an
`Except.error`, and an uncaught sqlite3.IntegrityError (the UNIQUE constraint
on subjects.name firing during an UPDATE) becomes `Err.InternalError`.
Nullable columns are `Option String`.
-/

deriving instance DecidableEq for Except

namespace Burdeos

/-- Error kinds surfaced by the handlers: HTTP 400 on a duplicate subject name,
HTTP 404 on a missing entity, and HTTP 500 for an uncaught exception such as a
sqlite3.IntegrityError or an AttributeError. -/
inductive Err where
  | Conflict
  | NotFound
  | InternalError
deriving Repr, DecidableEq

/-- Row of the subjects table: id INTEGER PRIMARY KEY AUTOINCREMENT,
name TEXT NOT NULL UNIQUE. -/
structure SubjectRow where
  id : Nat
  name : String
deriving Repr, DecidableEq

/-- Row of the tasks table: id INTEGER PRIMARY KEY AUTOINCREMENT,
subject_id INTEGER NOT NULL, title TEXT NOT NULL, due_date TEXT,
is_completed INTEGER DEFAULT 0 (stored as 0 or 1). -/
structure TaskRow where
  id : Nat
  subject_id : Nat
  title : String
  due_date : Option String
  is_completed : Nat
deriving Repr, DecidableEq

/-- Row of the study_plans table: id INTEGER PRIMARY KEY AUTOINCREMENT,
name TEXT NOT NULL, start_date TEXT, end_date TEXT. -/
structure StudyPlanRow where
  id : Nat
  name : String
  start_date : Option String
  end_date : Option String
deriving Repr, DecidableEq

/-- The whole SQLite database: the three tables in storage order, plus the
next id each AUTOINCREMENT column will hand out. -/
structure Store where
  subjects : List SubjectRow
  tasks : List TaskRow
  study_plans : List StudyPlanRow
  nextSubjectId : Nat
  nextTaskId : Nat
  nextPlanId : Nat
deriving Repr, DecidableEq

/-- The store seeded at import time: the five sample subjects and the five
sample tasks are inserted into the fresh database (lines 43-60 of the source),
leaving the subject and task AUTOINCREMENT counters at 6 and the untouched
study-plan counter at 1. -/
def initStore : Store :=
  { subjects := [⟨1, "Mathematics"⟩, ⟨2, "Science"⟩, ⟨3, "History"⟩,
                 ⟨4, "Geography"⟩, ⟨5, "Art"⟩]
    tasks := [⟨1, 1, "Math Homework", some "2024-09-20", 0⟩,
              ⟨2, 2, "Science Project", some "2024-09-21", 0⟩,
              ⟨3, 3, "History Essay", some "2024-09-22", 1⟩,
              ⟨4, 4, "Geography Quiz", some "2024-09-23", 0⟩,
              ⟨5, 5, "Art Assignment", some "2024-09-24", 1⟩]
    study_plans := []
    nextSubjectId := 6
    nextTaskId := 6
    nextPlanId := 1 }

/-- SELECT id, ... FROM subjects WHERE name=? followed by fetchone: the first
row of the table whose name matches, if any. -/
def findSubjectByName (s : Store) (name : String) : Option SubjectRow :=
  s.subjects.find? (fun r => r.name == name)

/-- Python str.lower applied character by character (the strings compared
against it here are ASCII, where Python lower-casing is exactly the per-char
ASCII mapping). -/
def strToLower (s : String) : String := String.mk (s.data.map Char.toLower)

/-- Lexicographic order on code-point sequences: this is the order that the
default SQLite BINARY collation (byte-wise memcmp on UTF-8) induces on text
values, since UTF-8 byte order coincides with code-point order. -/
def charListLe : List Char → List Char → Bool
  | [], _ => true
  | _ :: _, [] => false
  | a :: as, b :: bs =>
      if a.toNat < b.toNat then true
      else if b.toNat < a.toNat then false
      else charListLe as bs

/-- TEXT comparison `a <= b` as SQLite evaluates it on two non-NULL strings. -/
def strLe (a b : String) : Bool := charListLe a.data b.data

/-- The translation of `1 if task.is_completed.lower() == "complete" else 0`
applied to the completion-status string (source lines 116 and 173). -/
def statusFlag (st : String) : Nat :=
  if strToLower st == "complete" then 1 else 0

/-- The pydantic default for the Task model field
`is_completed: Optional[str] = "incomplete"`: a request that omits the field
is parsed as this string (source line 73). -/
def defaultCompletionStatus : String := "incomplete"

/-- Rendering of the stored 0/1 flag on the way out:
"complete" if row[4] == 1 else "incomplete". -/
def renderCompleted (n : Nat) : String :=
  if n == 1 then "complete" else "incomplete"

/-- POST /subjects/ (create_subject, source lines 87-96): a SELECT checks for
an existing subject with the requested name; if one exists the handler raises
HTTP 400 (Conflict) without touching the store, otherwise it INSERTs a fresh
row and commits. -/
def create_subject (s : Store) (name : String) : Except Err Store :=
  match findSubjectByName s name with
  | some _ => .error .Conflict
  | none =>
      .ok { s with
              subjects := s.subjects ++ [⟨s.nextSubjectId, name⟩]
              nextSubjectId := s.nextSubjectId + 1 }

/-- POST /tasks/ (create_task, source lines 106-120): resolve the subject name
(404 if absent), lower-case the completion status ("complete" maps to 1,
anything else to 0), INSERT the row.  If the client sent an explicit JSON
null for is_completed, `task.is_completed.lower()` raises an AttributeError,
an uncaught exception (HTTP 500); an absent field instead defaults to
"incomplete" at parse time. -/
def create_task (s : Store) (subject_name title : String)
    (due_date : Option String) (is_completed : Option String) :
    Except Err Store :=
  match findSubjectByName s subject_name with
  | none => .error .NotFound
  | some subj =>
      match is_completed with
      | none => .error .InternalError
      | some st =>
          .ok { s with
                  tasks := s.tasks ++
                    [⟨s.nextTaskId, subj.id, title, due_date, statusFlag st⟩]
                  nextTaskId := s.nextTaskId + 1 }

/-- View row returned by the task-listing handlers: the task joined with its
subject name, the completion flag rendered as a string. -/
structure TaskView where
  id : Nat
  subject_name : String
  title : String
  due_date : Option String
  is_completed : String
deriving Repr, DecidableEq

/-- GET /subjects/{name}/tasks/ (get_tasks_for_subject, source lines 123-137):
resolve the subject name (404 if absent), then list the tasks whose subject_id
matches, rendering the flag as "complete"/"incomplete". -/
def get_tasks_for_subject (s : Store) (subject_name : String) :
    Except Err (List TaskView) :=
  match findSubjectByName s subject_name with
  | none => .error .NotFound
  | some subj =>
      .ok ((s.tasks.filter (fun t => t.subject_id == subj.id)).map
        (fun t => ⟨t.id, subject_name, t.title, t.due_date,
                   renderCompleted t.is_completed⟩))

/-- PUT /tasks/{id}/complete/ (complete_task, source lines 140-146):
UPDATE tasks SET is_completed=1 WHERE id=?; if the UPDATE matched no row
(rowcount == 0) the handler raises 404, and nothing was changed. -/
def complete_task (s : Store) (task_id : Nat) : Except Err Store :=
  if s.tasks.any (fun t => t.id == task_id) then
    .ok { s with
            tasks := s.tasks.map (fun t =>
              if t.id == task_id then { t with is_completed := 1 } else t) }
  else .error .NotFound

/-- PUT /tasks/{id}/incomplete/ (mark_task_incomplete, source lines 227-233):
UPDATE tasks SET is_completed=0 WHERE id=?; 404 when rowcount == 0. -/
def mark_task_incomplete (s : Store) (task_id : Nat) : Except Err Store :=
  if s.tasks.any (fun t => t.id == task_id) then
    .ok { s with
            tasks := s.tasks.map (fun t =>
              if t.id == task_id then { t with is_completed := 0 } else t) }
  else .error .NotFound

/-- GET /tasks/ (get_all_tasks, source lines 149-160): inner JOIN of tasks
with subjects on subject_id = subjects.id; a task whose subject id matches no
subject row produces no output row.  subjects.id is the primary key, so the
matching row is unique and `find?` returns it. -/
def get_all_tasks (s : Store) : List TaskView :=
  s.tasks.filterMap (fun t =>
    match s.subjects.find? (fun r => r.id == t.subject_id) with
    | some subj => some ⟨t.id, subj.name, t.title, t.due_date,
                         renderCompleted t.is_completed⟩
    | none => none)

/-- PUT /tasks/{id}/ (update_task, source lines 163-184): resolve the subject
name (404 if absent), lower-case the completion status (AttributeError, hence
HTTP 500, on an explicit null), then UPDATE all four mutable columns of the
row WHERE id=?; 404 when the UPDATE matched no row, in which case nothing was
changed. -/
def update_task (s : Store) (task_id : Nat) (subject_name title : String)
    (due_date : Option String) (is_completed : Option String) :
    Except Err Store :=
  match findSubjectByName s subject_name with
  | none => .error .NotFound
  | some subj =>
      match is_completed with
      | none => .error .InternalError
      | some st =>
          if s.tasks.any (fun t => t.id == task_id) then
            .ok { s with
                    tasks := s.tasks.map (fun t =>
                      if t.id == task_id then
                        ⟨t.id, subj.id, title, due_date, statusFlag st⟩
                      else t) }
          else .error .NotFound

/-- DELETE /tasks/{id}/ (delete_task, source lines 188-194). -/
def delete_task (s : Store) (task_id : Nat) : Except Err Store :=
  if s.tasks.any (fun t => t.id == task_id) then
    .ok { s with tasks := s.tasks.filter (fun t => t.id != task_id) }
  else .error .NotFound

/-- DELETE /subjects/{name}/ (delete_subject, source lines 236-242):
DELETE FROM subjects WHERE name=?; 404 when rowcount == 0.  The tasks table is
not touched: the foreign key is not enforced (sqlite3 leaves foreign_keys off
by default) and there is no cascade, so tasks of the deleted subject remain. -/
def delete_subject (s : Store) (subject_name : String) : Except Err Store :=
  if s.subjects.any (fun r => r.name == subject_name) then
    .ok { s with subjects := s.subjects.filter (fun r => r.name != subject_name) }
  else .error .NotFound

/-- PUT /subjects/{name}/ (update_subject, source lines 277-283):
UPDATE subjects SET name=? WHERE name=?; 404 when rowcount == 0.  The handler
performs no uniqueness check of its own, but the schema declares
subjects.name TEXT NOT NULL UNIQUE (source line 16), so the UPDATE aborts with
an uncaught sqlite3.IntegrityError (HTTP 500) whenever the rename would
produce a duplicate name: either another row already carries the new name, or
at least two rows match the old name and would both receive the new one.
An aborted statement changes nothing. -/
def update_subject (s : Store) (subject_name new_name : String) :
    Except Err Store :=
  let matched := (s.subjects.filter (fun r => r.name == subject_name)).length
  if 1 ≤ matched ∧ new_name ≠ subject_name ∧
      ((∃ r ∈ s.subjects, r.name = new_name) ∨ 2 ≤ matched) then
    .error .InternalError
  else if matched = 0 then
    .error .NotFound
  else
    .ok { s with
            subjects := s.subjects.map (fun r =>
              if r.name == subject_name then { r with name := new_name } else r) }

/-- POST /study_plans/ (create_study_plan, source lines 197-202): plain
INSERT, no uniqueness check, always succeeds. -/
def create_study_plan (s : Store) (name : String)
    (start_date end_date : Option String) : Store :=
  { s with
      study_plans := s.study_plans ++ [⟨s.nextPlanId, name, start_date, end_date⟩]
      nextPlanId := s.nextPlanId + 1 }

/-- PUT /study_plans/{id}/ (update_study_plan, source lines 212-224). -/
def update_study_plan (s : Store) (plan_id : Nat) (name : String)
    (start_date end_date : Option String) : Except Err Store :=
  if s.study_plans.any (fun p => p.id == plan_id) then
    .ok { s with
            study_plans := s.study_plans.map (fun p =>
              if p.id == plan_id then ⟨p.id, name, start_date, end_date⟩ else p) }
  else .error .NotFound

/-- DELETE /study_plans/{id}/ (delete_study_plan, source lines 302-308). -/
def delete_study_plan (s : Store) (plan_id : Nat) : Except Err Store :=
  if s.study_plans.any (fun p => p.id == plan_id) then
    .ok { s with study_plans := s.study_plans.filter (fun p => p.id != plan_id) }
  else .error .NotFound

/-- GET /study_plans/date_range/ (get_study_plans_by_date_range, source lines
255-264): SELECT ... WHERE (start_date >= ? AND end_date <= ?).  Both bound
parameters are TEXT, the columns are TEXT, so SQLite compares the strings
with the BINARY collation modelled by `strLe`.  A NULL start_date or end_date
makes the comparison NULL, which is not true, so the row is filtered out. -/
def get_study_plans_by_date_range (s : Store) (start_date end_date : String) :
    List StudyPlanRow :=
  s.study_plans.filter (fun p =>
    match p.start_date, p.end_date with
    | some sd, some ed => strLe start_date sd && strLe ed end_date
    | _, _ => false)

/-- Output row of GET /subjects/task_count/. -/
structure SubjectWithTaskCount where
  id : Nat
  name : String
  task_count : Nat
deriving Repr, DecidableEq

/-- GET /subjects/task_count/ (get_subjects_with_task_count, source lines
311-320): LEFT JOIN of subjects with tasks on subjects.id = tasks.subject_id,
GROUP BY subjects.id, COUNT(tasks.id).  subjects.id is the primary key, so
each subject row is its own group; COUNT(tasks.id) counts the non-NULL joined
task ids, which is the number of tasks referencing the subject, and 0 for a
subject the left join padded with NULLs. -/
def get_subjects_with_task_count (s : Store) : List SubjectWithTaskCount :=
  s.subjects.map (fun subj =>
    ⟨subj.id, subj.name, (s.tasks.filter (fun t => t.subject_id == subj.id)).length⟩)

/-- The mutating operations of the service (the GET handlers never write, and
each appears here too as a read-only step), with their request payloads. -/
inductive Op where
  | createSubject (name : String)
  | updateSubject (subject_name new_name : String)
  | deleteSubject (subject_name : String)
  | createTask (subject_name title : String) (due_date is_completed : Option String)
  | updateTask (task_id : Nat) (subject_name title : String)
      (due_date is_completed : Option String)
  | deleteTask (task_id : Nat)
  | completeTask (task_id : Nat)
  | markTaskIncomplete (task_id : Nat)
  | createStudyPlan (name : String) (start_date end_date : Option String)
  | updateStudyPlan (plan_id : Nat) (name : String) (start_date end_date : Option String)
  | deleteStudyPlan (plan_id : Nat)
deriving Repr

/-- A handler that raises leaves the database exactly as it was: an error
response commits nothing. -/
def applyExcept (s : Store) : Except Err Store → Store
  | .ok s2 => s2
  | .error _ => s

/-- One request against the service: the handler runs and the store after the
call is its committed result, or the unchanged store when it raised. -/
def step (s : Store) : Op → Store
  | .createSubject n => applyExcept s (create_subject s n)
  | .updateSubject old new => applyExcept s (update_subject s old new)
  | .deleteSubject n => applyExcept s (delete_subject s n)
  | .createTask sn title dd ic => applyExcept s (create_task s sn title dd ic)
  | .updateTask tid sn title dd ic => applyExcept s (update_task s tid sn title dd ic)
  | .deleteTask tid => applyExcept s (delete_task s tid)
  | .completeTask tid => applyExcept s (complete_task s tid)
  | .markTaskIncomplete tid => applyExcept s (mark_task_incomplete s tid)
  | .createStudyPlan n sd ed => create_study_plan s n sd ed
  | .updateStudyPlan pid n sd ed => applyExcept s (update_study_plan s pid n sd ed)
  | .deleteStudyPlan pid => applyExcept s (delete_study_plan s pid)

/-- Running a sequence of requests against the service. -/
def run (s : Store) (ops : List Op) : Store :=
  ops.foldl step s

/-- Subject names are pairwise distinct in the store. -/
def uniqueNames (s : Store) : Prop :=
  (s.subjects.map (fun r => r.name)).Nodup

instance (s : Store) : Decidable (uniqueNames s) := by
  unfold uniqueNames; infer_instance

/-- The seeded store after deleting the subject "Mathematics": subject row 1
is gone, while its task (row id 1) remains as an orphan. -/
def orphanStore : Store := run initStore [Op.deleteSubject "Mathematics"]

/-! Theorems about the embedded service. -/

/-- Names of the subjects table rows, in storage order. -/
theorem findSubjectByName_none (s : Store) (n : String)
    (h : ¬ ∃ r ∈ s.subjects, r.name = n) : findSubjectByName s n = none := by
  unfold findSubjectByName
  rw [List.find?_eq_none]
  intro x hx
  simp only [beq_iff_eq]
  exact fun hxe => h ⟨x, hx, hxe⟩

theorem findSubjectByName_isSome (s : Store) (n : String)
    (h : ∃ r ∈ s.subjects, r.name = n) :
    (findSubjectByName s n).isSome := by
  unfold findSubjectByName
  rw [List.find?_isSome]
  obtain ⟨r, hr, hname⟩ := h
  exact ⟨r, hr, by simp [hname]⟩

/-- C1: createSubject with an already-present name fails with Conflict and the
store after the call is exactly the store before it; with a fresh name it
appends exactly one subject row bearing that name and succeeds. -/
theorem create_subject_conflict_or_inserts (s : Store) (name : String) :
    ((∃ r ∈ s.subjects, r.name = name) →
        create_subject s name = Except.error Err.Conflict ∧
        applyExcept s (create_subject s name) = s) ∧
    ((¬ ∃ r ∈ s.subjects, r.name = name) →
        create_subject s name = Except.ok
          { s with
              subjects := s.subjects ++ [⟨s.nextSubjectId, name⟩]
              nextSubjectId := s.nextSubjectId + 1 }) := by
  constructor
  · intro h
    have hs := findSubjectByName_isSome s name h
    unfold create_subject
    cases hf : findSubjectByName s name with
    | none => rw [hf] at hs; simp at hs
    | some r2 => exact ⟨rfl, rfl⟩
  · intro h
    have hf := findSubjectByName_none s name h
    unfold create_subject
    rw [hf]

/-- Witness for C1 at the seeded store: "Art" already exists, "Music" does
not. -/
theorem create_subject_conflict_or_inserts_witness :
    create_subject initStore "Art" = Except.error Err.Conflict ∧
    create_subject initStore "Music" = Except.ok
      { initStore with
          subjects := initStore.subjects ++ [⟨initStore.nextSubjectId, "Music"⟩]
          nextSubjectId := initStore.nextSubjectId + 1 } :=
  ⟨((create_subject_conflict_or_inserts initStore "Art").1 (by decide)).1,
   (create_subject_conflict_or_inserts initStore "Music").2 (by decide)⟩

/-- C7: createTask against a subject name that matches no subject row fails
with NotFound, and the store after the failed call is exactly the store
before it (no task row is inserted). -/
theorem create_task_missing_subject (s : Store) (sn title : String)
    (dd ic : Option String) (h : ¬ ∃ r ∈ s.subjects, r.name = sn) :
    create_task s sn title dd ic = Except.error Err.NotFound ∧
    applyExcept s (create_task s sn title dd ic) = s := by
  have hf := findSubjectByName_none s sn h
  unfold create_task
  rw [hf]
  exact ⟨rfl, rfl⟩

/-- Witness for C7 at the seeded store with the absent subject "Music". -/
theorem create_task_missing_subject_witness :
    create_task initStore "Music" "Practice scales" (some "2024-09-25")
        (some "incomplete") = Except.error Err.NotFound ∧
    applyExcept initStore (create_task initStore "Music" "Practice scales"
        (some "2024-09-25") (some "incomplete")) = initStore :=
  create_task_missing_subject initStore "Music" "Practice scales"
    (some "2024-09-25") (some "incomplete") (by decide)

/-- C5: a study plan is returned by the date-range query exactly when it is in
the table and both its dates are non-null and lie inside the window under the
lexicographic string order; in particular a plan with a null start_date or
null end_date is never returned. -/
theorem study_plans_in_date_range_members (s : Store) (sd ed : String)
    (p : StudyPlanRow) :
    p ∈ get_study_plans_by_date_range s sd ed ↔
      p ∈ s.study_plans ∧ ∃ a b, p.start_date = some a ∧ p.end_date = some b ∧
        strLe sd a = true ∧ strLe b ed = true := by
  unfold get_study_plans_by_date_range
  rw [List.mem_filter]
  constructor
  · rintro ⟨hp, hcond⟩
    refine ⟨hp, ?_⟩
    cases ha : p.start_date with
    | none => rw [ha] at hcond; simp at hcond
    | some a =>
      cases hb : p.end_date with
      | none => rw [ha, hb] at hcond; simp at hcond
      | some b =>
        rw [ha, hb] at hcond
        simp only [Bool.and_eq_true] at hcond
        exact ⟨a, b, rfl, rfl, hcond.1, hcond.2⟩
  · rintro ⟨hp, a, b, ha, hb, h1, h2⟩
    refine ⟨hp, ?_⟩
    rw [ha, hb]
    simp [h1, h2]

/-- C6: deleting an existing subject succeeds, removes exactly the subject
rows bearing that name, leaves the tasks table (and the study_plans table)
entirely unchanged, and afterwards listing tasks for that subject name fails
with NotFound even though the task rows persist. -/
theorem delete_subject_orphans_tasks (s : Store) (n : String)
    (h : ∃ r ∈ s.subjects, r.name = n) :
    ∃ s2, delete_subject s n = Except.ok s2 ∧
      s2.subjects = s.subjects.filter (fun r => r.name != n) ∧
      s2.tasks = s.tasks ∧
      s2.study_plans = s.study_plans ∧
      get_tasks_for_subject s2 n = Except.error Err.NotFound := by
  obtain ⟨r, hr, hname⟩ := h
  have hany : s.subjects.any (fun r => r.name == n) = true := by
    rw [List.any_eq_true]
    exact ⟨r, hr, by simp [hname]⟩
  refine ⟨{ s with subjects := s.subjects.filter (fun r => r.name != n) },
          ?_, rfl, rfl, rfl, ?_⟩
  · unfold delete_subject
    rw [hany]
    rfl
  · have hf : findSubjectByName
        { s with subjects := s.subjects.filter (fun r => r.name != n) } n = none := by
      unfold findSubjectByName
      rw [List.find?_eq_none]
      intro x hx
      have hne := (List.mem_filter.mp hx).2
      simp only [bne_iff_ne, ne_eq] at hne
      simp [hne]
    unfold get_tasks_for_subject
    rw [hf]

/-- Witness for C6 at the seeded store, deleting "Art". -/
theorem delete_subject_orphans_tasks_witness :
    ∃ s2, delete_subject initStore "Art" = Except.ok s2 ∧
      s2.subjects = initStore.subjects.filter (fun r => r.name != "Art") ∧
      s2.tasks = initStore.tasks ∧
      s2.study_plans = initStore.study_plans ∧
      get_tasks_for_subject s2 "Art" = Except.error Err.NotFound :=
  delete_subject_orphans_tasks initStore "Art" (by decide)

/-- Helper for the frame theorem: any member of the flag-setting map whose id
matches comes from a task row with that id that agrees on every other
field. -/
theorem mem_map_setFlag (tid flag : Nat) (l : List TaskRow) (t2 : TaskRow)
    (ht2 : t2 ∈ l.map (fun t =>
      if t.id == tid then { t with is_completed := flag } else t))
    (hid : t2.id = tid) :
    ∃ t ∈ l, t.id = tid ∧ t2.subject_id = t.subject_id ∧ t2.title = t.title ∧
      t2.due_date = t.due_date ∧ t2.is_completed = flag := by
  obtain ⟨t, ht, hgt⟩ := List.mem_map.mp ht2
  by_cases hc : t.id = tid
  · rw [if_pos (by simp [hc])] at hgt
    subst hgt
    exact ⟨t, ht, hc, rfl, rfl, rfl, rfl⟩
  · rw [if_neg (by simp [hc])] at hgt
    subst hgt
    exact absurd hid hc

/-- Helper: a task insert succeeds once the subject name resolved, and appends
exactly one row built from the request. -/
theorem create_task_ok_of_found (s : Store) (sn title : String)
    (dd : Option String) (st : String) (subj : SubjectRow)
    (hf : findSubjectByName s sn = some subj) :
    create_task s sn title dd (some st) = Except.ok
      { s with
          tasks := s.tasks ++ [⟨s.nextTaskId, subj.id, title, dd, statusFlag st⟩]
          nextTaskId := s.nextTaskId + 1 } := by
  unfold create_task
  rw [hf]

/-- Helper: no task row carries the id, so the UPDATE matches nothing. -/
theorem tasks_any_eq_false (s : Store) (tid : Nat)
    (h : ¬ ∃ t ∈ s.tasks, t.id = tid) :
    s.tasks.any (fun t => t.id == tid) = false := by
  rw [List.any_eq_false]
  intro x hx
  simp only [beq_iff_eq]
  exact fun he => h ⟨x, hx, he⟩

/-- Helper: some task row carries the id, so the UPDATE matches it. -/
theorem tasks_any_eq_true (s : Store) (tid : Nat)
    (h : ∃ t ∈ s.tasks, t.id = tid) :
    s.tasks.any (fun t => t.id == tid) = true := by
  rw [List.any_eq_true]
  obtain ⟨t, ht, he⟩ := h
  exact ⟨t, ht, by simp [he]⟩

/-- Helper: a task update succeeds once the subject resolved and a row carries
the id, rewriting every row with that id from the request fields. -/
theorem update_task_ok_of_found (s : Store) (tid : Nat) (sn title : String)
    (dd : Option String) (st : String) (subj : SubjectRow)
    (hf : findSubjectByName s sn = some subj)
    (ht : ∃ t ∈ s.tasks, t.id = tid) :
    update_task s tid sn title dd (some st) = Except.ok
      { s with tasks := s.tasks.map (fun t =>
          if t.id == tid then ⟨t.id, subj.id, title, dd, statusFlag st⟩
          else t) } := by
  unfold update_task
  rw [hf]
  dsimp only
  rw [if_pos (tasks_any_eq_true s tid ht)]

/-- C3: updateTask fails with NotFound when the subject name matches no
subject row, or when the subject resolves but no task row carries the id; in
either failure case the store after the call — hence every task row — is
exactly the store before it.  When both exist, every field of the task row
with that id is replaced from the request: its id is kept (it is the row
selector), and subject_id, title, due_date and is_completed take the given
values. -/
theorem update_task_replaces_or_notfound (s : Store) (tid : Nat)
    (sn title : String) (dd : Option String) (st : String) :
    ((¬ ∃ r ∈ s.subjects, r.name = sn) →
        update_task s tid sn title dd (some st) = Except.error Err.NotFound ∧
        applyExcept s (update_task s tid sn title dd (some st)) = s) ∧
    (∀ subj, findSubjectByName s sn = some subj →
      ((¬ ∃ t ∈ s.tasks, t.id = tid) →
          update_task s tid sn title dd (some st) = Except.error Err.NotFound ∧
          applyExcept s (update_task s tid sn title dd (some st)) = s) ∧
      ((∃ t ∈ s.tasks, t.id = tid) →
          update_task s tid sn title dd (some st) = Except.ok
            { s with tasks := s.tasks.map (fun t =>
                if t.id == tid then ⟨t.id, subj.id, title, dd, statusFlag st⟩
                else t) })) := by
  constructor
  · intro h
    have hf := findSubjectByName_none s sn h
    unfold update_task
    rw [hf]
    exact ⟨rfl, rfl⟩
  · intro subj hf
    constructor
    · intro h
      have hc := tasks_any_eq_false s tid h
      unfold update_task
      rw [hf]
      dsimp only
      rw [if_neg (by simp [hc])]
      exact ⟨rfl, rfl⟩
    · intro ht
      exact update_task_ok_of_found s tid sn title dd st subj hf ht

/-- Witness for C3 at the seeded store: missing subject, missing task, and a
successful full replace. -/
theorem update_task_replaces_or_notfound_witness :
    update_task initStore 1 "Music" "T" none (some "complete") =
      Except.error Err.NotFound ∧
    update_task initStore 99 "Science" "T" none (some "complete") =
      Except.error Err.NotFound ∧
    update_task initStore 1 "Science" "T" none (some "complete") = Except.ok
      { initStore with tasks := initStore.tasks.map (fun t =>
          if t.id == 1 then ⟨t.id, 2, "T", none, statusFlag "complete"⟩
          else t) } :=
  ⟨((update_task_replaces_or_notfound initStore 1 "Music" "T" none
      "complete").1 (by decide)).1,
   (((update_task_replaces_or_notfound initStore 99 "Science" "T" none
      "complete").2 ⟨2, "Science"⟩ (by decide)).1 (by decide)).1,
   ((update_task_replaces_or_notfound initStore 1 "Science" "T" none
      "complete").2 ⟨2, "Science"⟩ (by decide)).2 (by decide)⟩

/-- C4: the completion status string is interpreted only through its
lower-casing: a string that lower-cases to "complete" (the lower-casing of
the target word, so any casing of it) stores flag 1, any other string stores
flag 0, and an absent field is parsed as the default "incomplete", storing 0;
createTask and updateTask succeed for every status string once the subject
(and, for update, the task id) resolves, so no string value of the field
makes the call fail. -/
theorem completion_status_case_insensitive :
    (∀ st : String,
        (strToLower st = strToLower "complete" → statusFlag st = 1) ∧
        (strToLower st ≠ strToLower "complete" → statusFlag st = 0)) ∧
    statusFlag defaultCompletionStatus = 0 ∧
    (∀ s sn title dd st subj, findSubjectByName s sn = some subj →
        create_task s sn title dd (some st) = Except.ok
          { s with
              tasks := s.tasks ++
                [⟨s.nextTaskId, subj.id, title, dd, statusFlag st⟩]
              nextTaskId := s.nextTaskId + 1 }) ∧
    (∀ s tid sn title dd st subj, findSubjectByName s sn = some subj →
        (∃ t ∈ s.tasks, t.id = tid) →
        update_task s tid sn title dd (some st) = Except.ok
          { s with tasks := s.tasks.map (fun t =>
              if t.id == tid then ⟨t.id, subj.id, title, dd, statusFlag st⟩
              else t) }) := by
  have hcw : strToLower "complete" = "complete" := by decide
  refine ⟨?_, by decide, ?_, ?_⟩
  · intro st
    rw [hcw]
    constructor
    · intro h
      simp [statusFlag, h]
    · intro h
      simp [statusFlag, h]
  · intro s sn title dd st subj hf
    exact create_task_ok_of_found s sn title dd st subj hf
  · intro s tid sn title dd st subj hf ht
    exact update_task_ok_of_found s tid sn title dd st subj hf ht

/-- Witness for C4 at the seeded store: an upper-cased "COMPLETE" stores 1, a
misspelling stores 0, and createTask succeeds with an arbitrary status
string. -/
theorem completion_status_case_insensitive_witness :
    statusFlag "COMPLETE" = 1 ∧ statusFlag "done" = 0 ∧
    create_task initStore "Science" "Lab" none (some "WeIrD") = Except.ok
      { initStore with
          tasks := initStore.tasks ++
            [⟨initStore.nextTaskId, 2, "Lab", none, statusFlag "WeIrD"⟩]
          nextTaskId := initStore.nextTaskId + 1 } :=
  ⟨(completion_status_case_insensitive.1 "COMPLETE").1 (by decide),
   (completion_status_case_insensitive.1 "done").2 (by decide),
   completion_status_case_insensitive.2.2.1 initStore "Science" "Lab" none
     "WeIrD" ⟨2, "Science"⟩ (by decide)⟩

/-- C9: the task-count listing has exactly one entry per subject row; each
subject appears with its id, its name and the number of task rows referencing
its id, and a subject referenced by no task appears with count 0. -/
theorem subjects_with_task_count_spec (s : Store) :
    (get_subjects_with_task_count s).length = s.subjects.length ∧
    (∀ subj ∈ s.subjects, ∃ e ∈ get_subjects_with_task_count s,
        e.id = subj.id ∧ e.name = subj.name ∧
        e.task_count = s.tasks.countP (fun t => t.subject_id == subj.id)) ∧
    (∀ e ∈ get_subjects_with_task_count s, ∃ subj ∈ s.subjects,
        e.id = subj.id ∧ e.name = subj.name ∧
        e.task_count = s.tasks.countP (fun t => t.subject_id == subj.id)) ∧
    (∀ subj ∈ s.subjects, (∀ t ∈ s.tasks, t.subject_id ≠ subj.id) →
        ∃ e ∈ get_subjects_with_task_count s,
          e.id = subj.id ∧ e.name = subj.name ∧ e.task_count = 0) := by
  refine ⟨?_, ?_, ?_, ?_⟩
  · unfold get_subjects_with_task_count
    rw [List.length_map]
  · intro subj hs
    refine ⟨⟨subj.id, subj.name,
      (s.tasks.filter (fun t => t.subject_id == subj.id)).length⟩, ?_, rfl, rfl, ?_⟩
    · unfold get_subjects_with_task_count
      exact List.mem_map.mpr ⟨subj, hs, rfl⟩
    · rw [List.countP_eq_length_filter]
  · intro e he
    unfold get_subjects_with_task_count at he
    obtain ⟨subj, hs, hmap⟩ := List.mem_map.mp he
    subst hmap
    exact ⟨subj, hs, rfl, rfl, by rw [List.countP_eq_length_filter]⟩
  · intro subj hs hzero
    refine ⟨⟨subj.id, subj.name,
      (s.tasks.filter (fun t => t.subject_id == subj.id)).length⟩, ?_, rfl, rfl, ?_⟩
    · unfold get_subjects_with_task_count
      exact List.mem_map.mpr ⟨subj, hs, rfl⟩
    · have : s.tasks.filter (fun t => t.subject_id == subj.id) = [] := by
        rw [List.filter_eq_nil_iff]
        intro t ht
        simp only [beq_iff_eq]
        exact hzero t ht
      rw [this]
      rfl

/-- Witness for C9: after creating the subject "Music" (which has no tasks),
the listing reports it with count 0, and reports "Mathematics" with its one
task. -/
theorem subjects_with_task_count_witness :
    (∃ e ∈ get_subjects_with_task_count (run initStore [Op.createSubject "Music"]),
      e.id = 6 ∧ e.name = "Music" ∧ e.task_count = 0) ∧
    (∃ e ∈ get_subjects_with_task_count initStore,
      e.id = 1 ∧ e.name = "Mathematics" ∧
      e.task_count = initStore.tasks.countP (fun t => t.subject_id == 1)) :=
  ⟨(subjects_with_task_count_spec
      (run initStore [Op.createSubject "Music"])).2.2.2
      ⟨6, "Music"⟩ (by decide) (by decide),
   (subjects_with_task_count_spec initStore).2.1 ⟨1, "Mathematics"⟩ (by decide)⟩

/-- C10: a successful completeTask (and likewise markTaskIncomplete) leaves
the subjects table, the study_plans table and all id counters untouched, and
rewrites the tasks table with only the is_completed column of the rows with
the given id changed; any resulting row with that id keeps its subject_id,
title and due_date. -/
theorem complete_incomplete_frame :
    (∀ s tid s2, complete_task s tid = Except.ok s2 →
      s2.subjects = s.subjects ∧ s2.study_plans = s.study_plans ∧
      s2.nextSubjectId = s.nextSubjectId ∧ s2.nextTaskId = s.nextTaskId ∧
      s2.nextPlanId = s.nextPlanId ∧
      s2.tasks = s.tasks.map (fun t =>
        if t.id == tid then { t with is_completed := 1 } else t) ∧
      (∀ t2 ∈ s2.tasks, t2.id = tid → ∃ t ∈ s.tasks, t.id = tid ∧
        t2.subject_id = t.subject_id ∧ t2.title = t.title ∧
        t2.due_date = t.due_date ∧ t2.is_completed = 1)) ∧
    (∀ s tid s2, mark_task_incomplete s tid = Except.ok s2 →
      s2.subjects = s.subjects ∧ s2.study_plans = s.study_plans ∧
      s2.nextSubjectId = s.nextSubjectId ∧ s2.nextTaskId = s.nextTaskId ∧
      s2.nextPlanId = s.nextPlanId ∧
      s2.tasks = s.tasks.map (fun t =>
        if t.id == tid then { t with is_completed := 0 } else t) ∧
      (∀ t2 ∈ s2.tasks, t2.id = tid → ∃ t ∈ s.tasks, t.id = tid ∧
        t2.subject_id = t.subject_id ∧ t2.title = t.title ∧
        t2.due_date = t.due_date ∧ t2.is_completed = 0)) := by
  constructor
  · intro s tid s2 h
    unfold complete_task at h
    by_cases hc : s.tasks.any (fun t => t.id == tid) = true
    · rw [if_pos hc] at h
      injection h with h
      subst h
      refine ⟨rfl, rfl, rfl, rfl, rfl, rfl, ?_⟩
      intro t2 ht2 hid
      exact mem_map_setFlag tid 1 s.tasks t2 ht2 hid
    · rw [if_neg hc] at h
      exact absurd h (by simp)
  · intro s tid s2 h
    unfold mark_task_incomplete at h
    by_cases hc : s.tasks.any (fun t => t.id == tid) = true
    · rw [if_pos hc] at h
      injection h with h
      subst h
      refine ⟨rfl, rfl, rfl, rfl, rfl, rfl, ?_⟩
      intro t2 ht2 hid
      exact mem_map_setFlag tid 0 s.tasks t2 ht2 hid
    · rw [if_neg hc] at h
      exact absurd h (by simp)

/-- Witness for C10 at the seeded store: completing task 1 and marking task 3
incomplete leave the other tables unchanged. -/
theorem complete_incomplete_frame_witness :
    (run initStore [Op.completeTask 1]).subjects = initStore.subjects ∧
    (run initStore [Op.markTaskIncomplete 3]).study_plans =
      initStore.study_plans :=
  ⟨(complete_incomplete_frame.1 initStore 1
      (run initStore [Op.completeTask 1]) (by decide)).1,
   (complete_incomplete_frame.2 initStore 3
      (run initStore [Op.markTaskIncomplete 3]) (by decide)).2.1⟩

/-! Preservation of the subject-name uniqueness invariant (C2). -/

theorem create_task_keeps_subjects (s : Store) (sn title : String)
    (dd ic : Option String) :
    (applyExcept s (create_task s sn title dd ic)).subjects = s.subjects := by
  unfold create_task
  cases hf : findSubjectByName s sn with
  | none => rfl
  | some subj =>
      cases ic with
      | none => rfl
      | some st => rfl

theorem update_task_keeps_subjects (s : Store) (tid : Nat) (sn title : String)
    (dd ic : Option String) :
    (applyExcept s (update_task s tid sn title dd ic)).subjects = s.subjects := by
  unfold update_task
  cases hf : findSubjectByName s sn with
  | none => rfl
  | some subj =>
      cases ic with
      | none => rfl
      | some st =>
          by_cases hc : s.tasks.any (fun t => t.id == tid) = true
          · dsimp only
            rw [if_pos hc]
            rfl
          · dsimp only
            rw [if_neg hc]
            rfl

theorem complete_task_keeps_subjects (s : Store) (tid : Nat) :
    (applyExcept s (complete_task s tid)).subjects = s.subjects := by
  unfold complete_task
  by_cases hc : s.tasks.any (fun t => t.id == tid) = true
  · rw [if_pos hc]
    rfl
  · rw [if_neg hc]
    rfl

theorem mark_task_incomplete_keeps_subjects (s : Store) (tid : Nat) :
    (applyExcept s (mark_task_incomplete s tid)).subjects = s.subjects := by
  unfold mark_task_incomplete
  by_cases hc : s.tasks.any (fun t => t.id == tid) = true
  · rw [if_pos hc]
    rfl
  · rw [if_neg hc]
    rfl

theorem delete_task_keeps_subjects (s : Store) (tid : Nat) :
    (applyExcept s (delete_task s tid)).subjects = s.subjects := by
  unfold delete_task
  by_cases hc : s.tasks.any (fun t => t.id == tid) = true
  · rw [if_pos hc]
    rfl
  · rw [if_neg hc]
    rfl

theorem update_study_plan_keeps_subjects (s : Store) (pid : Nat) (n : String)
    (sd ed : Option String) :
    (applyExcept s (update_study_plan s pid n sd ed)).subjects = s.subjects := by
  unfold update_study_plan
  by_cases hc : s.study_plans.any (fun p => p.id == pid) = true
  · rw [if_pos hc]
    rfl
  · rw [if_neg hc]
    rfl

theorem delete_study_plan_keeps_subjects (s : Store) (pid : Nat) :
    (applyExcept s (delete_study_plan s pid)).subjects = s.subjects := by
  unfold delete_study_plan
  by_cases hc : s.study_plans.any (fun p => p.id == pid) = true
  · rw [if_pos hc]
    rfl
  · rw [if_neg hc]
    rfl

theorem create_subject_keeps_uniqueNames (s : Store) (n : String)
    (h : uniqueNames s) :
    uniqueNames (applyExcept s (create_subject s n)) := by
  unfold create_subject
  cases hf : findSubjectByName s n with
  | some r => exact h
  | none =>
      unfold applyExcept uniqueNames
      dsimp only
      rw [List.map_append, List.nodup_append]
      refine ⟨h, List.nodup_singleton n, ?_⟩
      intro a ha hb
      simp only [List.map_cons, List.map_nil, List.mem_singleton] at hb
      subst hb
      obtain ⟨r, hr, hrn⟩ := List.mem_map.mp ha
      unfold findSubjectByName at hf
      have := List.find?_eq_none.mp hf r hr
      simp only [beq_iff_eq] at this
      exact this hrn

theorem delete_subject_keeps_uniqueNames (s : Store) (n : String)
    (h : uniqueNames s) :
    uniqueNames (applyExcept s (delete_subject s n)) := by
  unfold delete_subject
  by_cases hc : s.subjects.any (fun r => r.name == n) = true
  · rw [if_pos hc]
    unfold applyExcept uniqueNames
    dsimp only
    exact h.sublist ((List.filter_sublist s.subjects).map (fun r => r.name))
  · rw [if_neg hc]
    exact h

theorem update_subject_keeps_uniqueNames (s : Store) (old new : String)
    (h : uniqueNames s) :
    uniqueNames (applyExcept s (update_subject s old new)) := by
  unfold update_subject
  by_cases h1 : (1 ≤ (s.subjects.filter (fun r => r.name == old)).length ∧
      new ≠ old ∧ ((∃ r ∈ s.subjects, r.name = new) ∨
        2 ≤ (s.subjects.filter (fun r => r.name == old)).length))
  · rw [if_pos h1]
    exact h
  · rw [if_neg h1]
    by_cases h2 : (s.subjects.filter (fun r => r.name == old)).length = 0
    · rw [if_pos h2]
      exact h
    · rw [if_neg h2]
      unfold applyExcept uniqueNames
      dsimp only
      have heq : (s.subjects.map (fun r =>
          if r.name == old then { r with name := new } else r)).map
            (fun r => r.name) =
          (s.subjects.map (fun r => r.name)).map
            (fun x => if x == old then new else x) := by
        rw [List.map_map, List.map_map]
        apply List.map_congr_left
        intro r _
        by_cases hr : r.name = old
        · simp [hr]
        · simp [hr]
      rw [heq]
      by_cases hno : new = old
      · subst hno
        have hid : ∀ x ∈ s.subjects.map (fun r => r.name),
            (if x == new then new else x) = x := by
          intro x _
          by_cases hx : x = new
          · simp [hx]
          · simp [hx]
        rw [List.map_congr_left hid, List.map_id']
        exact h
      · have hm1 : 1 ≤ (s.subjects.filter (fun r => r.name == old)).length :=
          Nat.one_le_iff_ne_zero.mpr h2
        have hnew : ¬ ∃ r ∈ s.subjects, r.name = new := by
          intro hex
          exact h1 ⟨hm1, hno, Or.inl hex⟩
        have hnotin : new ∉ s.subjects.map (fun r => r.name) := by
          intro hmem
          obtain ⟨r, hr, hrn⟩ := List.mem_map.mp hmem
          exact hnew ⟨r, hr, hrn⟩
        apply h.map_on
        intro x hx y hy hxy
        by_cases hxo : x = old <;> by_cases hyo : y = old
        · rw [hxo, hyo]
        · exfalso
          rw [if_pos (by simp [hxo]), if_neg (by simp [hyo])] at hxy
          exact hnotin (hxy ▸ hy)
        · exfalso
          rw [if_neg (by simp [hxo]), if_pos (by simp [hyo])] at hxy
          exact hnotin (hxy ▸ hx)
        · rwa [if_neg (by simp [hxo]), if_neg (by simp [hyo])] at hxy

theorem step_keeps_uniqueNames (s : Store) (op : Op) (h : uniqueNames s) :
    uniqueNames (step s op) := by
  cases op with
  | createSubject n => exact create_subject_keeps_uniqueNames s n h
  | updateSubject old new => exact update_subject_keeps_uniqueNames s old new h
  | deleteSubject n => exact delete_subject_keeps_uniqueNames s n h
  | createTask sn title dd ic =>
      unfold step uniqueNames
      rw [create_task_keeps_subjects]
      exact h
  | updateTask tid sn title dd ic =>
      unfold step uniqueNames
      rw [update_task_keeps_subjects]
      exact h
  | deleteTask tid =>
      unfold step uniqueNames
      rw [delete_task_keeps_subjects]
      exact h
  | completeTask tid =>
      unfold step uniqueNames
      rw [complete_task_keeps_subjects]
      exact h
  | markTaskIncomplete tid =>
      unfold step uniqueNames
      rw [mark_task_incomplete_keeps_subjects]
      exact h
  | createStudyPlan n sd ed => exact h
  | updateStudyPlan pid n sd ed =>
      unfold step uniqueNames
      rw [update_study_plan_keeps_subjects]
      exact h
  | deleteStudyPlan pid =>
      unfold step uniqueNames
      rw [delete_study_plan_keeps_subjects]
      exact h

theorem run_keeps_uniqueNames (ops : List Op) (s : Store) (h : uniqueNames s) :
    uniqueNames (run s ops) := by
  induction ops generalizing s with
  | nil => exact h
  | cons a l ih => exact ih (step s a) (step_keeps_uniqueNames s a h)

/-- C2: subject-name uniqueness is an invariant of the service: it holds in
the seeded store, every single operation preserves it (an operation that
would break it fails — createSubject with Conflict, updateSubject with the
UNIQUE-constraint abort — leaving the store untouched), and so it holds in
every store reachable from the seeded store by any sequence of operations. -/
theorem subject_names_unique :
    uniqueNames initStore ∧
    (∀ s op, uniqueNames s → uniqueNames (step s op)) ∧
    (∀ ops, uniqueNames (run initStore ops)) :=
  ⟨by decide,
   fun s op h => step_keeps_uniqueNames s op h,
   fun ops => run_keeps_uniqueNames ops initStore (by decide)⟩

/-- Witness for C2: one concrete rename step and one concrete run. -/
theorem subject_names_unique_witness :
    uniqueNames (step initStore (Op.updateSubject "Art" "Music")) ∧
    uniqueNames (run initStore [Op.createSubject "Music", Op.deleteSubject "Art"]) :=
  ⟨subject_names_unique.2.1 initStore (Op.updateSubject "Art" "Music") (by decide),
   subject_names_unique.2.2 [Op.createSubject "Music", Op.deleteSubject "Art"]⟩

/-! Round-tripping the completion flag (C8). -/

/-- Helper: after the tasks table is rewritten to set the flag of the rows
with id t.id, a task whose subject still resolves is read back with the
rendered flag, both through the join listing and through the per-subject
listing. -/
theorem read_back_after_map (s s2 : Store) (t : TaskRow) (subj : SubjectRow)
    (flag : Nat)
    (hs2 : s2 = { s with tasks := s.tasks.map (fun x =>
      if x.id == t.id then { x with is_completed := flag } else x) })
    (ht : t ∈ s.tasks)
    (hf : findSubjectByName s subj.name = some subj)
    (hsid : t.subject_id = subj.id) :
    (∃ v ∈ get_all_tasks s2, v.id = t.id ∧
      v.is_completed = renderCompleted flag) ∧
    (∃ l, get_tasks_for_subject s2 subj.name = Except.ok l ∧
      ∃ v ∈ l, v.id = t.id ∧ v.is_completed = renderCompleted flag) := by
  subst hs2
  have hgt : (fun x => if x.id == t.id then { x with is_completed := flag } else x) t
      = (⟨t.id, t.subject_id, t.title, t.due_date, flag⟩ : TaskRow) := by
    simp
  have ht1mem : (⟨t.id, t.subject_id, t.title, t.due_date, flag⟩ : TaskRow) ∈
      s.tasks.map (fun x =>
        if x.id == t.id then { x with is_completed := flag } else x) :=
    List.mem_map.mpr ⟨t, ht, hgt⟩
  have hsubjmem : subj ∈ s.subjects := List.mem_of_find?_eq_some hf
  constructor
  · have hid : (s.subjects.find? (fun r => r.id == t.subject_id)).isSome := by
      rw [List.find?_isSome]
      exact ⟨subj, hsubjmem, by simp [hsid]⟩
    obtain ⟨r, hr⟩ := Option.isSome_iff_exists.mp hid
    refine ⟨⟨t.id, r.name, t.title, t.due_date, renderCompleted flag⟩, ?_, rfl, rfl⟩
    unfold get_all_tasks
    apply List.mem_filterMap.mpr
    refine ⟨⟨t.id, t.subject_id, t.title, t.due_date, flag⟩, ht1mem, ?_⟩
    dsimp only
    rw [hr]
  · unfold get_tasks_for_subject
    unfold findSubjectByName at hf ⊢
    dsimp only
    rw [hf]
    refine ⟨_, rfl, ?_⟩
    refine ⟨⟨t.id, subj.name, t.title, t.due_date, renderCompleted flag⟩, ?_, rfl, rfl⟩
    apply List.mem_map.mpr
    refine ⟨⟨t.id, t.subject_id, t.title, t.due_date, flag⟩, ?_, rfl⟩
    exact List.mem_filter.mpr ⟨ht1mem, by simp [hsid]⟩

/-- C8 counterexample: in the reachable store where the subject "Mathematics"
was deleted, task id 1 is still present and completeTask 1 succeeds, yet the
task can be read back through neither listing — the join of listAllTasks
drops the orphan row, and listTasksForSubject on the deleted name fails with
NotFound — so the read-back does not yield "complete". -/
theorem complete_task_read_back_counterexample :
    (∃ t ∈ orphanStore.tasks, t.id = 1) ∧
    complete_task orphanStore 1 =
      Except.ok (applyExcept orphanStore (complete_task orphanStore 1)) ∧
    (¬ ∃ v ∈ get_all_tasks (applyExcept orphanStore (complete_task orphanStore 1)),
        v.id = 1) ∧
    get_tasks_for_subject
        (applyExcept orphanStore (complete_task orphanStore 1)) "Mathematics" =
      Except.error Err.NotFound :=
  ⟨by decide, by decide, by decide, by decide⟩

/-- C8 (amended): for a task row whose subject still resolves by name to a
subject row carrying the id the task references, completeTask on its id
succeeds and reading back through listAllTasks or listTasksForSubject yields
is_completed = "complete"; markTaskIncomplete likewise yields "incomplete";
and on an id carried by no task row, both operations fail with NotFound.
(The amendment restricts the read-back to tasks whose subject still exists;
for an orphan the flag is stored but neither listing returns the task.) -/
theorem complete_incomplete_roundtrip :
    (∀ s (t : TaskRow) (subj : SubjectRow), t ∈ s.tasks →
        findSubjectByName s subj.name = some subj → t.subject_id = subj.id →
        ∃ s2, complete_task s t.id = Except.ok s2 ∧
          (∃ v ∈ get_all_tasks s2, v.id = t.id ∧ v.is_completed = "complete") ∧
          (∃ l, get_tasks_for_subject s2 subj.name = Except.ok l ∧
            ∃ v ∈ l, v.id = t.id ∧ v.is_completed = "complete")) ∧
    (∀ s (t : TaskRow) (subj : SubjectRow), t ∈ s.tasks →
        findSubjectByName s subj.name = some subj → t.subject_id = subj.id →
        ∃ s2, mark_task_incomplete s t.id = Except.ok s2 ∧
          (∃ v ∈ get_all_tasks s2, v.id = t.id ∧ v.is_completed = "incomplete") ∧
          (∃ l, get_tasks_for_subject s2 subj.name = Except.ok l ∧
            ∃ v ∈ l, v.id = t.id ∧ v.is_completed = "incomplete")) ∧
    (∀ s tid, (¬ ∃ t ∈ s.tasks, t.id = tid) →
        complete_task s tid = Except.error Err.NotFound ∧
        mark_task_incomplete s tid = Except.error Err.NotFound) := by
  refine ⟨?_, ?_, ?_⟩
  · intro s t subj ht hf hsid
    have hany := tasks_any_eq_true s t.id ⟨t, ht, rfl⟩
    refine ⟨{ s with tasks := s.tasks.map (fun x =>
        if x.id == t.id then { x with is_completed := 1 } else x) }, ?_, ?_⟩
    · unfold complete_task
      rw [if_pos hany]
    · exact read_back_after_map s _ t subj 1 rfl ht hf hsid
  · intro s t subj ht hf hsid
    have hany := tasks_any_eq_true s t.id ⟨t, ht, rfl⟩
    refine ⟨{ s with tasks := s.tasks.map (fun x =>
        if x.id == t.id then { x with is_completed := 0 } else x) }, ?_, ?_⟩
    · unfold mark_task_incomplete
      rw [if_pos hany]
    · exact read_back_after_map s _ t subj 0 rfl ht hf hsid
  · intro s tid h
    have hc := tasks_any_eq_false s tid h
    constructor
    · unfold complete_task
      rw [if_neg (by simp [hc])]
    · unfold mark_task_incomplete
      rw [if_neg (by simp [hc])]

/-- Witness for the amended C8: task 1 of the seeded store round-trips
through completeTask and both listings, and id 99 yields NotFound. -/
theorem complete_incomplete_roundtrip_witness :
    (∃ s2, complete_task initStore 1 = Except.ok s2 ∧
      (∃ v ∈ get_all_tasks s2, v.id = 1 ∧ v.is_completed = "complete") ∧
      (∃ l, get_tasks_for_subject s2 "Mathematics" = Except.ok l ∧
        ∃ v ∈ l, v.id = 1 ∧ v.is_completed = "complete")) ∧
    complete_task initStore 99 = Except.error Err.NotFound ∧
    mark_task_incomplete initStore 99 = Except.error Err.NotFound :=
  ⟨complete_incomplete_roundtrip.1 initStore
      ⟨1, 1, "Math Homework", some "2024-09-20", 0⟩ ⟨1, "Mathematics"⟩
      (by decide) (by decide) (by decide),
   (complete_incomplete_roundtrip.2.2 initStore 99 (by decide)).1,
   (complete_incomplete_roundtrip.2.2 initStore 99 (by decide)).2⟩

end Burdeos
